import Mathlib

/-
Shallow embedding of the ClassTrack attendance service
(src/backend/server.py) and verification of the frozen claims.

Modelling conventions:
- The MongoDB collections `classes`, `students`, `attendance` are lists of
  documents; `find_one` is `List.find?` (first match in natural order),
  `find(...).to_list(1000)` is `filter` followed by `take 1000`, `insert_one`
  appends, and `update_one` rewrites the first matching document.
- Dates and timestamps are their ISO-8601 string forms (the server stores
  `date.isoformat()` / `datetime.utcnow().isoformat()` strings); Mongo's
  `$gte`/`$lte` on such strings is lexicographic comparison of the character
  codes, embedded as `strLe`.
- `uuid4` identifier generation and `datetime.utcnow()` clock readings are
  passed in explicitly, one argument per call the Python code makes, so the
  embedding is deterministic.  `mark_attendance` makes exactly two relevant
  clock calls per request, in source order, embedded as `now1` and `now2`.
- The report's `attendance_percentage` is `round(present / total_days * 100, 2)`
  computed in Python floats: an IEEE binary64 correctly-rounded int/int true
  division, a correctly-rounded product with the exact double 100, then
  CPython's correctly-rounded decimal rounding to 2 places (ties to even on
  the exact binary value of the double).  This pipeline is embedded exactly,
  in integer arithmetic, as `pythonPct` (doubles carried as mantissa and
  exponent pairs); the final 2-decimal value is an integer number of
  hundredths and is represented as that integer (60.00 percent is 6000).
  Because the double product can land on the far side of a decimal boundary
  from the exact fraction, this differs from rounding the exact fraction at
  some inputs (for example 23 of 160 gives 14.37, not 14.38).  All counts
  feeding the percentage are at most 1000 (the fetch cap), well inside the
  normal range of binary64, so no overflow or subnormal behaviour arises.
- Python truthiness tests on optional string parameters (`if class_id:`,
  `if start_date:`, `if date:`) treat the empty string like an absent
  parameter; `givenParam` embeds that check.
-/

namespace ClassTrack

/-- A document of the `attendance` collection (model `AttendanceRecord` in
server.py): `date` and `marked_at` are stored as ISO strings. -/
structure AttendanceDoc where
  id : String
  student_id : String
  class_id : String
  date : String
  status : String
  marked_at : String
deriving Repr, DecidableEq

/-- A document of the `students` collection (model `Student` in server.py). -/
structure StudentDoc where
  id : String
  name : String
  roll_number : String
  class_id : String
deriving Repr, DecidableEq

/-- A document of the `classes` collection (model `ClassInfo` in server.py);
`created_at` is kept as its ISO string form. -/
structure ClassDoc where
  id : String
  name : String
  subject : String
  created_at : String
deriving Repr, DecidableEq

/-- Lexicographic comparison of character-code lists, the order Mongo uses on
the stored ISO date strings. -/
def strLeAux : List Char → List Char → Bool
  | [], _ => true
  | _ :: _, [] => false
  | a :: as, b :: bs =>
    if a.toNat < b.toNat then true
    else if b.toNat < a.toNat then false
    else strLeAux as bs

/-- String comparison `a <= b` as performed by Mongo's `$gte`/`$lte` on the
stored date strings. -/
def strLe (a b : String) : Bool := strLeAux a.data b.data

/-- Round the exact fraction `num / den` (with `den > 0`) to the nearest
integer, ties to even: the rounding primitive of IEEE round-to-nearest and
of CPython's `round`. -/
def roundHalfEvenDiv (num den : ℤ) : ℤ :=
  let f : ℤ := num.fdiv den
  let r : ℤ := num - f * den
  if 2 * r < den then f
  else if den < 2 * r then f + 1
  else if f % 2 = 0 then f else f + 1

/-- Fuel-bounded floor of the base-2 logarithm: with enough fuel (any
`fuel >= n` suffices), the greatest `k` with `2^k <= n`, and 0 for
`n <= 1`. -/
def natLog2F : Nat → Nat → Nat
  | 0, _ => 0
  | fuel + 1, n => if n ≤ 1 then 0 else natLog2F fuel (n / 2) + 1

/-- Floor of the base-2 logarithm of a positive natural. -/
def natLog2 (n : Nat) : Nat := natLog2F n n

/-- Whether `b * 2^e <= a` for an integer (possibly negative) exponent. -/
def shiftLe (b a : Nat) (e : ℤ) : Bool :=
  match e with
  | Int.ofNat k => decide (b * 2 ^ k ≤ a)
  | Int.negSucc k => decide (b ≤ a * 2 ^ (k + 1))

/-- IEEE round-to-nearest (ties to even) of `a / b` read at binade `e`: the
integer `round(a / b * 2^(52-e))`, which is the 53-bit mantissa of the
rounded double when `2^e <= a/b < 2^(e+1)`. -/
def flMant (a b : Nat) (e : ℤ) : ℤ :=
  match 52 - e with
  | Int.ofNat k => roundHalfEvenDiv ((a : ℤ) * 2 ^ k) (b : ℤ)
  | Int.negSucc k => roundHalfEvenDiv (a : ℤ) ((b : ℤ) * 2 ^ (k + 1))

/-- IEEE binary64 correctly-rounded division of positive naturals in the
normal range (CPython's int/int true division): the result `(m, e)` denotes
the double of exact value `m * 2^(e-52)`.  The binade `e0` guessed from the
bit lengths is off by at most one and is corrected by a single
comparison. -/
def flDiv53 (a b : Nat) : ℤ × ℤ :=
  let e0 : ℤ := (natLog2 a : ℤ) - (natLog2 b : ℤ)
  let e : ℤ := if shiftLe b a e0 then e0 else e0 - 1
  (flMant a b e, e)

/-- The attendance percentage the program computes for `present` of `total`
records when `total > 0`, in exact hundredths: the binary64 evaluation of
`present / total * 100` (a correctly-rounded division, then a
correctly-rounded product with the exact double 100, value
`m2 * 2^(e1 + L - 104)`), followed by CPython's `round(x, 2)`, which rounds
the exact binary value of the double to 2 decimal places with ties to even.
A 2-decimal value is an integer number of hundredths, returned as that
integer.  `present = 0` divides to the exact double 0.0 and rounds to 0. -/
def pythonPct (present total : Nat) : ℤ :=
  if present = 0 then 0
  else
    let fl1 := flDiv53 present total
    let c : ℤ := fl1.1 * 100
    let L : ℤ := (natLog2 c.toNat : ℤ)
    let m2 : ℤ := flMant c.toNat 1 L
    match fl1.2 + L - 104 with
    | Int.ofNat k => m2 * 100 * 2 ^ k
    | Int.negSucc k => roundHalfEvenDiv (m2 * 100) (2 ^ (k + 1))

/-- Python truthiness of an optional string parameter: `None` and `""` are
both falsy, so an empty-string query parameter behaves like an absent one. -/
def givenParam : Option String → Option String
  | some s => if s == "" then none else some s
  | none => none

/-- The `find_one` filter used by `mark_attendance`: equality on the
`(student_id, class_id, date)` triple. -/
def tripleMatch (sid cid d : String) (r : AttendanceDoc) : Bool :=
  r.student_id == sid && r.class_id == cid && r.date == d

/-- Mongo `update_one`: rewrite the first document satisfying the filter,
leave everything else unchanged. -/
def update_one (db : List AttendanceDoc) (p : AttendanceDoc → Bool)
    (f : AttendanceDoc → AttendanceDoc) : List AttendanceDoc :=
  match db with
  | [] => []
  | d :: ds => if p d then f d :: ds else d :: update_one ds p f

/-- POST `/attendance` (server.py `mark_attendance`): read-then-write upsert
keyed on the `(student_id, class_id, date)` triple.  `newId` is the `uuid4`
drawn for a fresh record; `now1` and `now2` are the two successive
`datetime.utcnow()` readings the handler makes, in source order.  In the
found branch the store receives `now1` (the `update_one` `$set`) and the
returned record receives `now2` (the `existing.update` call); in the
not-found branch the returned model object receives `now1` (its
`default_factory`) and the inserted document receives `now2` (the explicit
overwrite of `attendance_doc["marked_at"]`).  Returns the new store contents
and the record returned to the caller. -/
def mark_attendance (db : List AttendanceDoc) (student_id class_id date status : String)
    (newId now1 now2 : String) : List AttendanceDoc × AttendanceDoc :=
  match db.find? (tripleMatch student_id class_id date) with
  | some existing =>
      (update_one db (fun r => r.id == existing.id)
         (fun r => { r with status := status, marked_at := now1 }),
       { existing with status := status, marked_at := now2 })
  | none =>
      (db ++ [{ id := newId, student_id := student_id, class_id := class_id,
                date := date, status := status, marked_at := now2 }],
       { id := newId, student_id := student_id, class_id := class_id,
         date := date, status := status, marked_at := now1 })

/-- One element of the `attendance_records` list of a bulk request: a JSON
object whose `student_id` / `status` keys may each be missing (`record[...]`
raises `KeyError` on a missing key, aborting the loop). -/
structure RawPair where
  student_id : Option String
  status : Option String
deriving Repr, DecidableEq

/-- POST `/attendance/bulk` (server.py `mark_bulk_attendance`): iterate the
raw pairs in list order, calling `mark_attendance` for each; `supply n` gives
the `(uuid, now1, now2)` fresh values consumed by the `n`-th call.  A pair
with a missing key aborts the loop with an unhandled `KeyError` (`none`
result), keeping the store writes already performed. -/
def mark_bulk_attendance (db : List AttendanceDoc) (class_id date : String)
    (records : List RawPair) (supply : Nat → String × String × String) :
    List AttendanceDoc × Option (List AttendanceDoc) :=
  match records with
  | [] => (db, some [])
  | raw :: rest =>
      match raw.student_id, raw.status with
      | some sid, some st =>
          let u := supply 0
          let step := mark_attendance db sid class_id date st u.1 u.2.1 u.2.2
          let tail := mark_bulk_attendance step.1 class_id date rest (fun n => supply (n + 1))
          (tail.1, tail.2.map (fun l => step.2 :: l))
      | _, _ => (db, none)

/-- Modelled from the spec (section 4.2, bulk contract): apply the
individual-mark operation once per `(student_id, status)` pair, in list
order, threading the store through; return the final store and the ordered
list of per-pair resulting records. -/
def bulkSpecSeq (db : List AttendanceDoc) (class_id date : String)
    (pairs : List (String × String)) (supply : Nat → String × String × String) :
    List AttendanceDoc × List AttendanceDoc :=
  match pairs with
  | [] => (db, [])
  | p :: rest =>
      let u := supply 0
      let step := mark_attendance db p.1 class_id date p.2 u.1 u.2.1 u.2.2
      let tail := bulkSpecSeq step.1 class_id date rest (fun n => supply (n + 1))
      (tail.1, step.2 :: tail.2)

/-- GET `/classes`: `db.classes.find().to_list(1000)`. -/
def get_classes (db : List ClassDoc) : List ClassDoc := db.take 1000

/-- GET `/classes/{class_id}`: `find_one({"id": class_id})`; `none` is the
404 branch. -/
def get_class (db : List ClassDoc) (class_id : String) : Option ClassDoc :=
  db.find? (fun c => c.id == class_id)

/-- GET `/students`: optional `class_id` filter guarded by Python truthiness
(`if class_id:`), then `to_list(1000)`. -/
def get_students (db : List StudentDoc) (class_id : Option String) : List StudentDoc :=
  match givenParam class_id with
  | some cid => (db.filter (fun s => s.class_id == cid)).take 1000
  | none => db.take 1000

/-- GET `/students/{student_id}`: `find_one({"id": student_id})`; `none` is
the 404 branch. -/
def get_student (db : List StudentDoc) (student_id : String) : Option StudentDoc :=
  db.find? (fun s => s.id == student_id)

/-- GET `/attendance`: required `class_id` equality plus optional exact date
(guarded by `if date:`), then `to_list(1000)`. -/
def get_attendance (db : List AttendanceDoc) (class_id : String) (date : Option String) :
    List AttendanceDoc :=
  match givenParam date with
  | some d => (db.filter (fun r => r.class_id == class_id && r.date == d)).take 1000
  | none => (db.filter (fun r => r.class_id == class_id)).take 1000

/-- The Mongo filter document `get_class_report` builds: a `class_id`
equality plus optional `$gte` / `$lte` bounds on `date`. -/
structure DateFilter where
  class_id : String
  dateGte : Option String
  dateLte : Option String
deriving Repr, DecidableEq

/-- Construction of the report's date filter (server.py lines 202-213): each
bound is attached only when its parameter is truthy. -/
def buildDateFilter (class_id : String) (start_date end_date : Option String) : DateFilter :=
  { class_id := class_id, dateGte := givenParam start_date, dateLte := givenParam end_date }

/-- Satisfaction of the report's Mongo filter by one attendance document. -/
def matchesFilter (f : DateFilter) (r : AttendanceDoc) : Bool :=
  r.class_id == f.class_id &&
  (match f.dateGte with
   | some s => strLe s r.date
   | none => true) &&
  (match f.dateLte with
   | some e => strLe r.date e
   | none => true)

/-- The per-student value stored in the report's `student_statistics` map.
`attendance_percentage_hundredths` is the 2-decimal-rounded percentage,
represented exactly as an integer number of hundredths of a percent. -/
structure StudentStats where
  student_name : String
  roll_number : String
  total_days : Nat
  present : Nat
  absent : Nat
  late : Nat
  attendance_percentage_hundredths : ℤ
deriving Repr, DecidableEq

/-- The per-student statistics block of `get_class_report` (server.py lines
217-236): filter the fetched records by `student_id`, count the three
recognized statuses, and compute `round(present / total_days * 100, 2)` in
Python floats (embedded exactly by `pythonPct`) when `total_days > 0`, else
report 0. -/
def computeStats (records : List AttendanceDoc) (s : StudentDoc) : StudentStats :=
  let sa := records.filter (fun r => r.student_id == s.id)
  let present := (sa.filter (fun r => r.status == "present")).length
  let absent := (sa.filter (fun r => r.status == "absent")).length
  let late := (sa.filter (fun r => r.status == "late")).length
  { student_name := s.name, roll_number := s.roll_number,
    total_days := sa.length, present := present, absent := absent, late := late,
    attendance_percentage_hundredths :=
      if 0 < sa.length then pythonPct present sa.length else 0 }

/-- The students the report aggregates over:
`db.students.find({"class_id": class_id}).to_list(1000)`. -/
def classStudents (students : List StudentDoc) (class_id : String) : List StudentDoc :=
  (students.filter (fun s => s.class_id == class_id)).take 1000

/-- The attendance records the report aggregates over:
`db.attendance.find(date_filter).to_list(1000)`. -/
def filteredRecords (attendance : List AttendanceDoc) (class_id : String)
    (start_date end_date : Option String) : List AttendanceDoc :=
  (attendance.filter (matchesFilter (buildDateFilter class_id start_date end_date))).take 1000

/-- Python dict assignment `student_stats[student_id] = {...}`: replace in
place when the key is already present, append otherwise. -/
def dictInsert (l : List (String × StudentStats)) (k : String) (v : StudentStats) :
    List (String × StudentStats) :=
  if l.any (fun p => p.1 == k) then
    l.map (fun p => if p.1 == k then (k, v) else p)
  else
    l ++ [(k, v)]

/-- The report's per-student loop: insert one statistics entry per fetched
student, in list order, into the `student_stats` dict. -/
def statsFold (recs : List AttendanceDoc) (acc : List (String × StudentStats)) :
    List StudentDoc → List (String × StudentStats)
  | [] => acc
  | s :: rest => statsFold recs (dictInsert acc s.id (computeStats recs s)) rest

/-- The report object returned by GET `/reports/{class_id}`. -/
structure Report where
  class_info : ClassDoc
  start_date : Option String
  end_date : Option String
  student_statistics : List (String × StudentStats)
deriving Repr, DecidableEq

/-- GET `/reports/{class_id}` (server.py `get_class_report`): 404 when the
class id is unknown, otherwise aggregate per-student statistics over the
fetched students and the date-filtered attendance records. -/
def get_class_report (classes : List ClassDoc) (students : List StudentDoc)
    (attendance : List AttendanceDoc) (class_id : String)
    (start_date end_date : Option String) : Option Report :=
  match classes.find? (fun c => c.id == class_id) with
  | none => none
  | some cls =>
      some { class_info := cls, start_date := start_date, end_date := end_date,
             student_statistics :=
               statsFold (filteredRecords attendance class_id start_date end_date) []
                 (classStudents students class_id) }

/-- The triple that keys the upsert of section 4.2. -/
def tripleKey (r : AttendanceDoc) : String × String × String :=
  (r.student_id, r.class_id, r.date)

/-- The invariant of section 3: at most one attendance document per
`(student_id, class_id, date)` triple. -/
def atMostOnePerTriple (db : List AttendanceDoc) : Prop :=
  (db.map tripleKey).Nodup

/-- The student used by the C9 counterexample: a stored student whose
`class_id` is the non-empty string "A". -/
def c9student : StudentDoc :=
  { id := "s1", name := "Bob", roll_number := "1", class_id := "A" }

/-- The stored class used by the C10 concrete truncation instance. -/
def c10class : ClassDoc :=
  { id := "c1", name := "Math", subject := "M", created_at := "t0" }

/-- The stored student used by the C10 concrete truncation instance. -/
def c10student : StudentDoc :=
  { id := "s1", name := "Bob", roll_number := "1", class_id := "c1" }

/-- The attendance document replicated 1001 times in the C10 instance. -/
def c10rec : AttendanceDoc :=
  { id := "a1", student_id := "s1", class_id := "c1", date := "2024-01-01",
    status := "present", marked_at := "t1" }

/-- The stored class used by the C2 concrete percentage instance. -/
def c2class : ClassDoc :=
  { id := "c1", name := "Math", subject := "M", created_at := "t0" }

/-- The stored student used by the C2 concrete percentage instance. -/
def c2student : StudentDoc :=
  { id := "s1", name := "Bob", roll_number := "1", class_id := "c1" }

/-- Five attendance records for the C2 instance: 3 present, 1 absent,
1 late. -/
def c2att : List AttendanceDoc :=
  [ { id := "a1", student_id := "s1", class_id := "c1", date := "2024-01-01",
      status := "present", marked_at := "t1" },
    { id := "a2", student_id := "s1", class_id := "c1", date := "2024-01-02",
      status := "present", marked_at := "t1" },
    { id := "a3", student_id := "s1", class_id := "c1", date := "2024-01-03",
      status := "present", marked_at := "t1" },
    { id := "a4", student_id := "s1", class_id := "c1", date := "2024-01-04",
      status := "absent", marked_at := "t1" },
    { id := "a5", student_id := "s1", class_id := "c1", date := "2024-01-05",
      status := "late", marked_at := "t1" } ]

/-- One attendance record of the C2 counterexample store, with distinct id
and date per index. -/
def c2mkRec (status : String) (i : Nat) : AttendanceDoc :=
  { id := "a" ++ Nat.repr i, student_id := "s1", class_id := "c1",
    date := "d" ++ Nat.repr i, status := status, marked_at := "t1" }

/-- The C2 counterexample store: 160 records for one student, 23 of them
`present` and 137 `absent`, all with distinct dates. -/
def c2att160 : List AttendanceDoc :=
  ((List.range 23).map (c2mkRec "present"))
    ++ ((List.range 137).map (fun i => c2mkRec "absent" (23 + i)))

/-- The stored class used by the C4 unrecognized-status instance. -/
def c4class : ClassDoc :=
  { id := "c1", name := "Math", subject := "M", created_at := "t0" }

/-- The stored student used by the C4 unrecognized-status instance. -/
def c4student : StudentDoc :=
  { id := "s1", name := "Bob", roll_number := "1", class_id := "c1" }

/-- An attendance record whose status string is not one of the three
recognized values. -/
def c4rec : AttendanceDoc :=
  { id := "a1", student_id := "s1", class_id := "c1", date := "2024-01-01",
    status := "excused", marked_at := "t1" }

/-- A record dated 2024-01-01 for the C5 window instances. -/
def c5a : AttendanceDoc :=
  { id := "a1", student_id := "s1", class_id := "c1", date := "2024-01-01",
    status := "present", marked_at := "t1" }

/-- A record dated 2024-01-15 for the C5 window instance. -/
def c5b : AttendanceDoc :=
  { id := "a2", student_id := "s1", class_id := "c1", date := "2024-01-15",
    status := "present", marked_at := "t1" }

/-- A record dated 2024-02-01 for the C5 window instance. -/
def c5c : AttendanceDoc :=
  { id := "a3", student_id := "s1", class_id := "c1", date := "2024-02-01",
    status := "present", marked_at := "t1" }

/-- A pre-existing attendance record with an unrelated triple, used by the
C1 witness store. -/
def c1db : List AttendanceDoc :=
  [{ id := "a0", student_id := "sX", class_id := "cX", date := "dX",
     status := "present", marked_at := "t0" }]

/-- The statistics entry computed for the C2 concrete instance. -/
def c2stats : StudentStats :=
  { student_name := "Bob", roll_number := "1", total_days := 5, present := 3,
    absent := 1, late := 1, attendance_percentage_hundredths := 6000 }

/-- The report returned for the C2 concrete instance. -/
def c2rep : Report :=
  { class_info := c2class, start_date := none, end_date := none,
    student_statistics := [("s1", c2stats)] }

/-- The stored class of the C3 witness instance. -/
def c3class : ClassDoc :=
  { id := "c1", name := "Math", subject := "M", created_at := "t0" }

/-- The C3 witness student with one attendance record. -/
def c3s1 : StudentDoc :=
  { id := "s1", name := "Bob", roll_number := "1", class_id := "c1" }

/-- The C3 witness student with no attendance records. -/
def c3s2 : StudentDoc :=
  { id := "s2", name := "Ann", roll_number := "2", class_id := "c1" }

/-- The single attendance record of the C3 witness instance (for s1 only). -/
def c3rec : AttendanceDoc :=
  { id := "a1", student_id := "s1", class_id := "c1", date := "2024-01-01",
    status := "present", marked_at := "t1" }

/-- The report returned for the C3 witness instance. -/
def c3rep : Report :=
  { class_info := c3class, start_date := none, end_date := none,
    student_statistics :=
      [("s1", { student_name := "Bob", roll_number := "1", total_days := 1,
                present := 1, absent := 0, late := 0,
                attendance_percentage_hundredths := 10000 }),
       ("s2", { student_name := "Ann", roll_number := "2", total_days := 0,
                present := 0, absent := 0, late := 0,
                attendance_percentage_hundredths := 0 })] }

/-- The statistics entry computed for the C4 unrecognized-status instance. -/
def c4stats : StudentStats :=
  { student_name := "Bob", roll_number := "1", total_days := 1, present := 0,
    absent := 0, late := 0, attendance_percentage_hundredths := 0 }

/-- The report returned for the C4 unrecognized-status instance. -/
def c4rep : Report :=
  { class_info := c4class, start_date := none, end_date := none,
    student_statistics := [("s1", c4stats)] }

/-- The stored class of the C6 witness instance. -/
def c6class : ClassDoc :=
  { id := "c1", name := "Math", subject := "M", created_at := "t0" }

/-- The uuid/clock supply of the C7 witness batch. -/
def c7supply : Nat → String × String × String := fun _ => ("u", "t1", "t2")

/-- The student store of the C9 witness: one student in class A, one in
class B. -/
def c9db : List StudentDoc :=
  [ { id := "s1", name := "Bob", roll_number := "1", class_id := "A" },
    { id := "s2", name := "Ann", roll_number := "2", class_id := "B" } ]

/-- The statistics entry of the C10 witness report. -/
def c10stats : StudentStats :=
  { student_name := "Bob", roll_number := "1", total_days := 1, present := 1,
    absent := 0, late := 0, attendance_percentage_hundredths := 10000 }

/-- The report of the C10 witness instance (a single stored record). -/
def c10rep : Report :=
  { class_info := c10class, start_date := none, end_date := none,
    student_statistics := [("s1", c10stats)] }

/-- The upsert's `find_one` filter succeeds exactly on documents carrying the
requested triple. -/
theorem tripleMatch_iff (sid cid d : String) (r : AttendanceDoc) :
    tripleMatch sid cid d r = true ↔ tripleKey r = (sid, cid, d) := by
  simp [tripleMatch, tripleKey, Prod.ext_iff, and_assoc]

/-- `update_one` leaves any field-projection unchanged when the update
function does. -/
theorem update_one_map_eq {α : Type} (g : AttendanceDoc → α) (p : AttendanceDoc → Bool)
    (f : AttendanceDoc → AttendanceDoc) (hf : ∀ r, g (f r) = g r) :
    ∀ db : List AttendanceDoc, (update_one db p f).map g = db.map g
  | [] => rfl
  | d :: ds => by
    by_cases h : p d
    · simp [update_one, h, hf]
    · simp [update_one, h, update_one_map_eq g p f hf ds]

/-- When document ids are unique, updating by a member's id rewrites exactly
that member, so the rewritten document is in the result. -/
theorem update_one_mem_of_nodup (f : AttendanceDoc → AttendanceDoc) :
    ∀ (db : List AttendanceDoc), (db.map AttendanceDoc.id).Nodup →
      ∀ ex ∈ db, f ex ∈ update_one db (fun r => r.id == ex.id) f
  | [], _, ex, hex => absurd hex (by simp)
  | d :: ds, hnd, ex, hex => by
    rw [List.map_cons, List.nodup_cons] at hnd
    rcases List.mem_cons.mp hex with h | h
    · subst h
      simp [update_one]
    · have hne : d.id ≠ ex.id := by
        intro he
        exact hnd.1 (he ▸ List.mem_map_of_mem _ h)
      simp only [update_one]
      rw [if_neg (by simp [hne])]
      exact List.mem_cons_of_mem _ (update_one_mem_of_nodup f ds hnd.2 ex h)

/-- `update_one` skips over a prefix on which the filter fails. -/
theorem update_one_append_none (p : AttendanceDoc → Bool) (f : AttendanceDoc → AttendanceDoc) :
    ∀ (l₁ l₂ : List AttendanceDoc), (∀ r ∈ l₁, p r = false) →
      update_one (l₁ ++ l₂) p f = l₁ ++ update_one l₂ p f
  | [], _, _ => rfl
  | a :: t, l₂, h => by
    have hpa : p a = false := h a (List.mem_cons_self a t)
    simp only [List.cons_append, update_one]
    rw [if_neg (by simp [hpa])]
    have := update_one_append_none p f t l₂ (fun r hr => h r (List.mem_cons_of_mem a hr))
    rw [show t.append l₂ = t ++ l₂ from rfl, this]

/-- `find?` skips over a prefix with no match. -/
theorem find?_append_none {α : Type} (p : α → Bool) :
    ∀ (l₁ l₂ : List α), l₁.find? p = none → (l₁ ++ l₂).find? p = l₂.find? p
  | [], _, _ => rfl
  | a :: t, l₂, h => by
    by_cases hpa : p a = true
    · rw [List.find?_cons_of_pos _ hpa] at h
      exact absurd h (by simp)
    · rw [List.find?_cons_of_neg _ hpa] at h
      rw [List.cons_append, List.find?_cons_of_neg _ hpa]
      exact find?_append_none p t l₂ h

/-- Membership in a Python-dict insertion comes from the old entries or is
the inserted pair. -/
theorem dictInsert_mem {l : List (String × StudentStats)} {q : String × StudentStats}
    (k : String) (v : StudentStats) (hq : q ∈ dictInsert l k v) :
    q ∈ l ∨ q = (k, v) := by
  unfold dictInsert at hq
  by_cases h : l.any (fun p => p.1 == k)
  · rw [if_pos h] at hq
    rcases List.mem_map.mp hq with ⟨p, hp, hpq⟩
    by_cases hk : p.1 == k
    · right
      rw [if_pos hk] at hpq
      exact hpq.symm
    · left
      rw [if_neg hk] at hpq
      exact hpq ▸ hp
  · rw [if_neg h] at hq
    rcases List.mem_append.mp hq with h1 | h1
    · exact Or.inl h1
    · right
      simpa using h1

/-- A Python-dict insertion always contains the inserted pair. -/
theorem dictInsert_self_mem (l : List (String × StudentStats)) (k : String) (v : StudentStats) :
    (k, v) ∈ dictInsert l k v := by
  unfold dictInsert
  by_cases h : l.any (fun p => p.1 == k)
  · rw [if_pos h]
    rcases List.any_eq_true.mp h with ⟨p, hp, hpk⟩
    exact List.mem_map.mpr ⟨p, hp, by rw [if_pos hpk]⟩
  · rw [if_neg h]
    simp

/-- A Python-dict insertion under a different key keeps old entries. -/
theorem dictInsert_mem_of_ne {l : List (String × StudentStats)} {k' : String}
    {v' : StudentStats} (hq : (k', v') ∈ l) (k : String) (v : StudentStats)
    (hne : k' ≠ k) : (k', v') ∈ dictInsert l k v := by
  unfold dictInsert
  by_cases h : l.any (fun p => p.1 == k)
  · rw [if_pos h]
    refine List.mem_map.mpr ⟨(k', v'), hq, ?_⟩
    rw [if_neg (by simp [hne])]
  · rw [if_neg h]
    exact List.mem_append_left _ hq

/-- Keys of a Python-dict insertion are old keys or the inserted key. -/
theorem dictInsert_keys {l : List (String × StudentStats)} {q : String × StudentStats}
    (k : String) (v : StudentStats) (hq : q ∈ dictInsert l k v) :
    q.1 ∈ l.map Prod.fst ∨ q.1 = k := by
  rcases dictInsert_mem k v hq with h | h
  · exact Or.inl (List.mem_map_of_mem _ h)
  · right
    rw [h]

/-- Every entry of the statistics dict is the accumulated seed or the
computed statistics of one of the iterated students. -/
theorem statsFold_mem (recs : List AttendanceDoc) :
    ∀ (sts : List StudentDoc) (acc : List (String × StudentStats))
      (q : String × StudentStats), q ∈ statsFold recs acc sts →
      q ∈ acc ∨ ∃ s ∈ sts, q = (s.id, computeStats recs s)
  | [], _, _, hq => Or.inl hq
  | s :: rest, acc, q, hq => by
    rcases statsFold_mem recs rest _ q hq with h | ⟨t, ht, hqt⟩
    · rcases dictInsert_mem _ _ h with h1 | h1
      · exact Or.inl h1
      · exact Or.inr ⟨s, List.mem_cons_self s rest, h1⟩
    · exact Or.inr ⟨t, List.mem_cons_of_mem _ ht, hqt⟩

/-- An accumulated entry survives the statistics loop when no iterated
student carries its key. -/
theorem statsFold_mem_of_stable (recs : List AttendanceDoc) :
    ∀ (sts : List StudentDoc) (acc : List (String × StudentStats))
      (k : String) (v : StudentStats), (k, v) ∈ acc → (∀ t ∈ sts, t.id ≠ k) →
      (k, v) ∈ statsFold recs acc sts
  | [], _, _, _, hin, _ => hin
  | s :: rest, acc, k, v, hin, hne => by
    have h1 : (k, v) ∈ dictInsert acc s.id (computeStats recs s) :=
      dictInsert_mem_of_ne hin _ _ (fun he => hne s (List.mem_cons_self s rest) he.symm)
    exact statsFold_mem_of_stable recs rest _ k v h1
      (fun t ht => hne t (List.mem_cons_of_mem _ ht))

/-- When the iterated students have pairwise distinct ids and a student's id
is not among the seed keys, the loop produces that student's entry. -/
theorem statsFold_insert_mem (recs : List AttendanceDoc) :
    ∀ (sts : List StudentDoc) (acc : List (String × StudentStats))
      (s : StudentDoc), (sts.map StudentDoc.id).Nodup → s ∈ sts →
      s.id ∉ acc.map Prod.fst →
      (s.id, computeStats recs s) ∈ statsFold recs acc sts
  | [], _, s, _, hs, _ => absurd hs (by simp)
  | t :: rest, acc, s, hnd, hs, hacc => by
    rw [List.map_cons, List.nodup_cons] at hnd
    rcases List.mem_cons.mp hs with h | h
    · subst h
      exact statsFold_mem_of_stable recs rest _ _ _
        (dictInsert_self_mem acc s.id (computeStats recs s))
        (fun u hu he => hnd.1 (he ▸ List.mem_map_of_mem _ hu))
    · have hne : s.id ≠ t.id := by
        intro he
        exact hnd.1 (he ▸ List.mem_map_of_mem _ h)
      have hacc2 : s.id ∉ (dictInsert acc t.id (computeStats recs t)).map Prod.fst := by
        intro hmem
        rcases List.mem_map.mp hmem with ⟨q, hq, hq1⟩
        rcases dictInsert_keys _ _ hq with h1 | h1
        · exact hacc (hq1 ▸ h1)
        · exact hne (hq1 ▸ h1)
      exact statsFold_insert_mem recs rest _ s hnd.2 h hacc2

/-- The three recognized status buckets are mutually exclusive, so their
counts sum to at most the number of records. -/
theorem bucket_sum_le (l : List AttendanceDoc) :
    (l.filter (fun r => r.status == "present")).length
      + (l.filter (fun r => r.status == "absent")).length
      + (l.filter (fun r => r.status == "late")).length ≤ l.length := by
  induction l with
  | nil => simp
  | cons r t ih =>
    by_cases h1 : r.status = "present"
    · have e2 : (r.status == "absent") = false := by rw [h1]; decide
      have e3 : (r.status == "late") = false := by rw [h1]; decide
      simp only [List.filter_cons, h1, e2, e3]
      simp only [List.length_cons]
      simp
      omega
    · have e1 : (r.status == "present") = false := beq_eq_false_iff_ne.mpr h1
      by_cases h2 : r.status = "absent"
      · have e3 : (r.status == "late") = false := by rw [h2]; decide
        simp only [List.filter_cons, e1, h2, e3]
        simp only [List.length_cons]
        simp
        omega
      · have e2 : (r.status == "absent") = false := beq_eq_false_iff_ne.mpr h2
        by_cases h3 : r.status = "late"
        · simp only [List.filter_cons, e1, e2, h3]
          simp only [List.length_cons]
          simp
          omega
        · have e3 : (r.status == "late") = false := beq_eq_false_iff_ne.mpr h3
          simp only [List.filter_cons, e1, e2, e3]
          simp only [List.length_cons]
          simp
          omega

/-- Filtering a replicated list with a predicate the element satisfies keeps
everything. -/
theorem filter_replicate_of_pos {α : Type} (p : α → Bool) (a : α) (h : p a = true) :
    ∀ n : Nat, (List.replicate n a).filter p = List.replicate n a
  | 0 => rfl
  | n + 1 => by
    simp [List.replicate_succ, List.filter_cons, h, filter_replicate_of_pos p a h n]

/-- When the report succeeds, its statistics map is the per-student loop run
over the fetched (capped) students and records. -/
theorem report_stats_eq (classes : List ClassDoc) (students : List StudentDoc)
    (attendance : List AttendanceDoc) (cid : String) (sd ed : Option String)
    (rep : Report)
    (hrep : get_class_report classes students attendance cid sd ed = some rep) :
    rep.student_statistics
      = statsFold (filteredRecords attendance cid sd ed) [] (classStudents students cid) := by
  unfold get_class_report at hrep
  cases hfind : classes.find? (fun c => c.id == cid) with
  | none =>
    rw [hfind] at hrep
    exact absurd hrep (by simp)
  | some cls =>
    rw [hfind] at hrep
    have h2 := Option.some.inj hrep
    rw [← h2]

/-- Every entry of a successful report is the computed statistics of one of
the fetched students, keyed by that student's id. -/
theorem report_entry_shape (classes : List ClassDoc) (students : List StudentDoc)
    (attendance : List AttendanceDoc) (cid : String) (sd ed : Option String)
    (rep : Report) (q : String × StudentStats)
    (hrep : get_class_report classes students attendance cid sd ed = some rep)
    (hq : q ∈ rep.student_statistics) :
    ∃ s ∈ classStudents students cid,
      q = (s.id, computeStats (filteredRecords attendance cid sd ed) s) := by
  rw [report_stats_eq classes students attendance cid sd ed rep hrep] at hq
  rcases statsFold_mem _ _ _ _ hq with h | h
  · exact absurd h (List.not_mem_nil q)
  · exact h

/-- A truthy optional parameter is a non-empty string. -/
theorem givenParam_some_iff (o : Option String) (s : String) :
    givenParam o = some s ↔ o = some s ∧ s ≠ "" := by
  cases o with
  | none => simp [givenParam]
  | some t =>
    by_cases h : t = ""
    · subst h
      constructor
      · intro hg
        exact absurd hg (by simp [givenParam])
      · rintro ⟨he, hne⟩
        exact absurd (Option.some.inj he) (fun hh => hne hh.symm)
    · have hb : (t == "") = false := beq_eq_false_iff_ne.mpr h
      constructor
      · intro hg
        simp only [givenParam, hb] at hg
        simp at hg
        exact ⟨by rw [hg], by rw [← hg]; exact h⟩
      · rintro ⟨he, hne⟩
        simp only [givenParam, hb]
        simp
        exact Option.some.inj he

/-- Universal statements over a truthy optional parameter collapse to the
`givenParam` branches. -/
theorem givenParam_forall_iff (o : Option String) (P : String → Prop) :
    (∀ s, o = some s → s ≠ "" → P s) ↔
      (match givenParam o with
       | some s => P s
       | none => True) := by
  cases hg : givenParam o with
  | none =>
    simp only [iff_true]
    intro s hs hne
    have h2 := (givenParam_some_iff o s).mpr ⟨hs, hne⟩
    rw [hg] at h2
    exact absurd h2 (by simp)
  | some s =>
    rcases (givenParam_some_iff o s).mp hg with ⟨ho, hne⟩
    subst ho
    constructor
    · intro ha
      exact ha s rfl hne
    · intro hp t ht
      cases Option.some.inj ht
      intro _
      exact hp

/-- Characterization of the report's Mongo date filter: class equality plus
each bound, a bound being active exactly when its parameter is a given
non-empty string. -/
theorem matchesFilter_buildDateFilter (cid : String) (sd ed : Option String)
    (r : AttendanceDoc) :
    matchesFilter (buildDateFilter cid sd ed) r = true ↔
      r.class_id = cid ∧
      (∀ s, sd = some s → s ≠ "" → strLe s r.date = true) ∧
      (∀ e, ed = some e → e ≠ "" → strLe r.date e = true) := by
  rw [givenParam_forall_iff sd (fun s => strLe s r.date = true)]
  rw [givenParam_forall_iff ed (fun e => strLe r.date e = true)]
  unfold matchesFilter buildDateFilter
  cases givenParam sd with
  | none =>
    cases givenParam ed with
    | none => simp
    | some e => simp
  | some s =>
    cases givenParam ed with
    | none => simp
    | some e => simp [and_assoc]

/-- Claim C6: get-class-by-id, get-student-by-id and the report fail with
NotFound (modelled as `none`) exactly when no stored document of the
corresponding kind has the requested id; when one exists, the operation
returns a stored document with that id (the report proceeds to
aggregation). -/
theorem c6_notfound_iff :
    (∀ (db : List ClassDoc) (cid : String),
      (get_class db cid = none ↔ ∀ c ∈ db, c.id ≠ cid))
    ∧ (∀ (db : List ClassDoc) (cid : String) (c : ClassDoc),
      get_class db cid = some c → c ∈ db ∧ c.id = cid)
    ∧ (∀ (db : List StudentDoc) (sid : String),
      (get_student db sid = none ↔ ∀ s ∈ db, s.id ≠ sid))
    ∧ (∀ (db : List StudentDoc) (sid : String) (s : StudentDoc),
      get_student db sid = some s → s ∈ db ∧ s.id = sid)
    ∧ (∀ (classes : List ClassDoc) (students : List StudentDoc)
        (attendance : List AttendanceDoc) (cid : String) (sd ed : Option String),
      (get_class_report classes students attendance cid sd ed = none ↔
        ∀ c ∈ classes, c.id ≠ cid)) := by
  refine ⟨?_, ?_, ?_, ?_, ?_⟩
  · intro db cid
    unfold get_class
    rw [List.find?_eq_none]
    simp
  · intro db cid c hc
    refine ⟨List.mem_of_find?_eq_some hc, ?_⟩
    have h1 := List.find?_some hc
    simpa using h1
  · intro db sid
    unfold get_student
    rw [List.find?_eq_none]
    simp
  · intro db sid s hs
    refine ⟨List.mem_of_find?_eq_some hs, ?_⟩
    have h1 := List.find?_some hs
    simpa using h1
  · intro classes students attendance cid sd ed
    unfold get_class_report
    cases hfind : classes.find? (fun c => c.id == cid) with
    | none =>
      simp only [iff_true_intro rfl, true_iff]
      have h1 := List.find?_eq_none.mp hfind
      intro c hc
      have h2 := h1 c hc
      simpa using h2
    | some cls =>
      simp only
      constructor
      · intro h
        exact absurd h (by simp)
      · intro h
        have h1 := List.find?_some hfind
        have h2 := List.mem_of_find?_eq_some hfind
        exact absurd (by simpa using h1) (h cls h2)

/-- Claim C9 (amended): with a non-empty `class_id` filter, listing students
returns exactly the first up-to-1000 students whose `class_id` equals the
filter (all of them when at most 1000 students are stored); with the filter
absent, or supplied as the empty string (which Python truthiness treats as
absent), the first up-to-1000 students are returned unfiltered. -/
theorem c9_students_filter :
    (∀ (db : List StudentDoc) (cid : String), cid ≠ "" →
      get_students db (some cid) = (db.filter (fun s => s.class_id == cid)).take 1000)
    ∧ (∀ (db : List StudentDoc) (cid : String), cid ≠ "" → db.length ≤ 1000 →
      get_students db (some cid) = db.filter (fun s => s.class_id == cid))
    ∧ (∀ db : List StudentDoc, db.length ≤ 1000 → get_students db none = db)
    ∧ (∀ db : List StudentDoc, db.length ≤ 1000 → get_students db (some "") = db) := by
  have hg : ∀ (db : List StudentDoc) (cid : String), cid ≠ "" →
      get_students db (some cid) = (db.filter (fun s => s.class_id == cid)).take 1000 := by
    intro db cid h
    unfold get_students
    rw [show givenParam (some cid) = some cid from (givenParam_some_iff _ _).mpr ⟨rfl, h⟩]
  refine ⟨hg, ?_, ?_, ?_⟩
  · intro db cid h hlen
    rw [hg db cid h]
    exact List.take_of_length_le (le_trans (List.length_filter_le _ _) hlen)
  · intro db hlen
    show db.take 1000 = db
    exact List.take_of_length_le hlen
  · intro db hlen
    show db.take 1000 = db
    exact List.take_of_length_le hlen

/-- Claim C9 counterexample: filtering by the supplied value `""` returns a
student whose `class_id` is not `""` (the falsy filter is dropped), and with
1001 matching students stored the listing returns only 1000 of them. -/
theorem c9_counterexample :
    (get_students [c9student] (some "") = [c9student] ∧ c9student.class_id ≠ "")
    ∧ ((get_students (List.replicate 1001 c9student) (some "A")).length = 1000
      ∧ ((List.replicate 1001 c9student).filter (fun s => s.class_id == "A")).length = 1001) := by
  refine ⟨⟨rfl, by decide⟩, ?_, ?_⟩
  · show ((((List.replicate 1001 c9student).filter
        (fun s => s.class_id == "A"))).take 1000).length = 1000
    rw [filter_replicate_of_pos (fun s : StudentDoc => s.class_id == "A") c9student
      (by decide) 1001]
    rw [List.take_replicate, List.length_replicate]
    norm_num
  · rw [filter_replicate_of_pos (fun s : StudentDoc => s.class_id == "A") c9student
      (by decide) 1001]
    rw [List.length_replicate]

/-- Claim C1: the mark operation preserves the at-most-one-record-per-triple
invariant, and marking a fresh triple twice in sequence (with a fresh uuid on
the first call) leaves exactly one stored record for the triple, whose status
is the second call's status and whose id is the one allocated by the first
call (its `marked_at` being the second call's store-side clock reading). -/
theorem c1_mark_preserves_unique_triple :
    (∀ (db : List AttendanceDoc) (sid cid d st nid t1 t2 : String),
      atMostOnePerTriple db →
      atMostOnePerTriple (mark_attendance db sid cid d st nid t1 t2).1)
    ∧ (∀ (db : List AttendanceDoc) (sid cid d st1 st2 id1 id2 t1 t2 t3 t4 : String),
      atMostOnePerTriple db →
      (∀ r ∈ db, tripleMatch sid cid d r = false) →
      (∀ r ∈ db, r.id ≠ id1) →
      ((mark_attendance (mark_attendance db sid cid d st1 id1 t1 t2).1
          sid cid d st2 id2 t3 t4).1.filter (tripleMatch sid cid d))
        = [{ id := id1, student_id := sid, class_id := cid, date := d,
             status := st2, marked_at := t3 }]) := by
  constructor
  · intro db sid cid d st nid t1 t2 hinv
    unfold mark_attendance
    cases hfind : db.find? (tripleMatch sid cid d) with
    | some ex =>
      simp only
      unfold atMostOnePerTriple
      rw [update_one_map_eq tripleKey (fun r => r.id == ex.id)
        (fun r => { r with status := st, marked_at := t1 }) (fun r => rfl) db]
      exact hinv
    | none =>
      simp only
      unfold atMostOnePerTriple at hinv ⊢
      rw [List.map_append, List.nodup_append]
      refine ⟨hinv, by simp, ?_⟩
      intro x hx
      rcases List.mem_map.mp hx with ⟨r, hr, hxr⟩
      simp only [List.map_cons, List.map_nil, List.mem_singleton]
      intro hcontr
      have h1 := List.find?_eq_none.mp hfind r hr
      have h2 : tripleKey r = (sid, cid, d) := by
        rw [hxr]
        rw [hcontr]
        rfl
      exact h1 ((tripleMatch_iff sid cid d r).mpr h2)
  · intro db sid cid d st1 st2 id1 id2 t1 t2 t3 t4 _ hfresh hid
    have hfind1 : db.find? (tripleMatch sid cid d) = none :=
      List.find?_eq_none.mpr (fun r hr => by rw [hfresh r hr]; simp)
    have hdb1 : (mark_attendance db sid cid d st1 id1 t1 t2).1
        = db ++ [{ id := id1, student_id := sid, class_id := cid, date := d,
                   status := st1, marked_at := t2 }] := by
      unfold mark_attendance
      rw [hfind1]
    set doc1 : AttendanceDoc :=
      { id := id1, student_id := sid, class_id := cid, date := d,
        status := st1, marked_at := t2 } with hdoc1
    have hmatch1 : tripleMatch sid cid d doc1 = true := by
      rw [hdoc1]
      simp [tripleMatch]
    have hfind2 : (db ++ [doc1]).find? (tripleMatch sid cid d) = some doc1 := by
      rw [find?_append_none _ db [doc1] hfind1]
      rw [List.find?_cons_of_pos _ hmatch1]
    have hdb2 : (mark_attendance (db ++ [doc1]) sid cid d st2 id2 t3 t4).1
        = update_one (db ++ [doc1]) (fun r => r.id == doc1.id)
            (fun r => { r with status := st2, marked_at := t3 }) := by
      unfold mark_attendance
      rw [hfind2]
    have htail : update_one [doc1] (fun r => r.id == doc1.id)
        (fun r => { r with status := st2, marked_at := t3 })
        = [{ id := id1, student_id := sid, class_id := cid, date := d,
             status := st2, marked_at := t3 }] := by
      simp only [update_one]
      rw [if_pos (by simp)]
    have hup : update_one (db ++ [doc1]) (fun r => r.id == doc1.id)
        (fun r => { r with status := st2, marked_at := t3 })
        = db ++ [{ id := id1, student_id := sid, class_id := cid, date := d,
                   status := st2, marked_at := t3 }] := by
      rw [update_one_append_none _ _ db [doc1]
        (fun r hr => beq_eq_false_iff_ne.mpr (hid r hr))]
      rw [htail]
    rw [hdb1, hdb2, hup, List.filter_append]
    rw [List.filter_eq_nil_iff.mpr (fun r hr => by rw [hfresh r hr]; simp)]
    rw [List.nil_append]
    rw [List.filter_cons_of_pos (by simp [tripleMatch])]
    rfl

/-- Claim C8 (amended): with unique stored ids, the record returned by the
mark operation and the document persisted for the triple agree on id,
student_id, class_id, date and status; their `marked_at` fields come from the
two separate clock readings the handler makes, so they agree whenever those
two readings are equal. -/
theorem c8_returned_vs_stored :
    ∀ (db : List AttendanceDoc) (sid cid d st nid t1 t2 : String),
      (db.map AttendanceDoc.id).Nodup →
      ∃ stored ∈ (mark_attendance db sid cid d st nid t1 t2).1,
        stored.id = (mark_attendance db sid cid d st nid t1 t2).2.id
        ∧ (mark_attendance db sid cid d st nid t1 t2).2.student_id = sid
        ∧ (mark_attendance db sid cid d st nid t1 t2).2.class_id = cid
        ∧ (mark_attendance db sid cid d st nid t1 t2).2.date = d
        ∧ (mark_attendance db sid cid d st nid t1 t2).2.status = st
        ∧ stored.student_id = sid ∧ stored.class_id = cid ∧ stored.date = d
        ∧ stored.status = st
        ∧ (stored.marked_at = t1 ∨ stored.marked_at = t2)
        ∧ ((mark_attendance db sid cid d st nid t1 t2).2.marked_at = t1
            ∨ (mark_attendance db sid cid d st nid t1 t2).2.marked_at = t2)
        ∧ (t1 = t2 →
            stored.marked_at = (mark_attendance db sid cid d st nid t1 t2).2.marked_at) := by
  intro db sid cid d st nid t1 t2 hnd
  cases hfind : db.find? (tripleMatch sid cid d) with
  | none =>
    have hres : mark_attendance db sid cid d st nid t1 t2
        = (db ++ [{ id := nid, student_id := sid, class_id := cid, date := d,
                    status := st, marked_at := t2 }],
           { id := nid, student_id := sid, class_id := cid, date := d,
             status := st, marked_at := t1 }) := by
      unfold mark_attendance
      rw [hfind]
    rw [hres]
    refine ⟨{ id := nid, student_id := sid, class_id := cid, date := d,
              status := st, marked_at := t2 }, ?_, ?_⟩
    · exact List.mem_append_right db (by simp)
    · refine ⟨rfl, rfl, rfl, rfl, rfl, rfl, rfl, rfl, rfl, Or.inr rfl, Or.inl rfl, ?_⟩
      intro h12
      exact h12.symm
  | some ex =>
    have hres : mark_attendance db sid cid d st nid t1 t2
        = (update_one db (fun r => r.id == ex.id)
            (fun r => { r with status := st, marked_at := t1 }),
           { ex with status := st, marked_at := t2 }) := by
      unfold mark_attendance
      rw [hfind]
    rw [hres]
    have hmem := List.mem_of_find?_eq_some hfind
    have htr := (tripleMatch_iff sid cid d ex).mp (List.find?_some hfind)
    have hsid : ex.student_id = sid := congrArg (fun p => p.1) htr
    have hcid : ex.class_id = cid := congrArg (fun p => p.2.1) htr
    have hd : ex.date = d := congrArg (fun p => p.2.2) htr
    refine ⟨{ ex with status := st, marked_at := t1 },
      update_one_mem_of_nodup _ db hnd ex hmem, ?_⟩
    exact ⟨rfl, hsid, hcid, hd, rfl, hsid, hcid, hd, rfl, Or.inl rfl, Or.inr rfl,
      fun h12 => h12⟩

/-- Claim C8 counterexample: on a fresh triple with distinct clock readings
T1 and T2 the returned record's `marked_at` is T1 while the persisted
document's `marked_at` is T2, so the returned record does not equal the
stored one. -/
theorem computeStats_total (recs : List AttendanceDoc) (s : StudentDoc) :
    (computeStats recs s).total_days
      = (recs.filter (fun r => r.student_id == s.id)).length := rfl

theorem computeStats_present (recs : List AttendanceDoc) (s : StudentDoc) :
    (computeStats recs s).present
      = ((recs.filter (fun r => r.student_id == s.id)).filter
          (fun r => r.status == "present")).length := rfl

theorem computeStats_absent (recs : List AttendanceDoc) (s : StudentDoc) :
    (computeStats recs s).absent
      = ((recs.filter (fun r => r.student_id == s.id)).filter
          (fun r => r.status == "absent")).length := rfl

theorem computeStats_late (recs : List AttendanceDoc) (s : StudentDoc) :
    (computeStats recs s).late
      = ((recs.filter (fun r => r.student_id == s.id)).filter
          (fun r => r.status == "late")).length := rfl

theorem computeStats_pct (recs : List AttendanceDoc) (s : StudentDoc) :
    (computeStats recs s).attendance_percentage_hundredths
      = (if 0 < (computeStats recs s).total_days then
          pythonPct (computeStats recs s).present (computeStats recs s).total_days
        else 0) := rfl

theorem c8_counterexample :
    ((mark_attendance [] "s1" "c1" "2024-01-01" "present" "id1" "T1" "T2").2.marked_at = "T1")
    ∧ ((mark_attendance [] "s1" "c1" "2024-01-01" "present" "id1" "T1" "T2").1
        = [{ id := "id1", student_id := "s1", class_id := "c1", date := "2024-01-01",
             status := "present", marked_at := "T2" }])
    ∧ ("T1" : String) ≠ "T2" := by
  refine ⟨rfl, rfl, by decide⟩

/-- Claim C10: every list endpoint returns at most 1000 documents, the
report aggregates over the capped student and attendance fetches (so every
entry is computed from those capped lists and its total_days cannot exceed
1000), and with 1001 matching attendance records stored the report counts
1000 of them, not all 1001. -/
theorem c10_fetch_caps :
    (∀ db : List ClassDoc, (get_classes db).length ≤ 1000)
    ∧ (∀ (db : List StudentDoc) (q : Option String), (get_students db q).length ≤ 1000)
    ∧ (∀ (db : List AttendanceDoc) (cid : String) (d : Option String),
      (get_attendance db cid d).length ≤ 1000)
    ∧ (∀ (students : List StudentDoc) (cid : String),
      (classStudents students cid).length ≤ 1000)
    ∧ (∀ (attendance : List AttendanceDoc) (cid : String) (sd ed : Option String),
      (filteredRecords attendance cid sd ed).length ≤ 1000)
    ∧ (∀ (classes : List ClassDoc) (students : List StudentDoc)
        (attendance : List AttendanceDoc) (cid : String) (sd ed : Option String)
        (rep : Report) (q : String × StudentStats),
      get_class_report classes students attendance cid sd ed = some rep →
      q ∈ rep.student_statistics →
      q.2.total_days ≤ 1000
      ∧ ∃ s ∈ classStudents students cid,
          q = (s.id, computeStats (filteredRecords attendance cid sd ed) s))
    ∧ ((get_class_report [c10class] [c10student] (List.replicate 1001 c10rec) "c1"
          none none).map (fun rep => rep.student_statistics.map
            (fun q => (q.1, q.2.total_days)))
        = some [("s1", 1000)]) := by
  have hfr : ∀ (attendance : List AttendanceDoc) (cid : String) (sd ed : Option String),
      (filteredRecords attendance cid sd ed).length ≤ 1000 := by
    intro attendance cid sd ed
    unfold filteredRecords
    exact List.length_take_le _ _
  refine ⟨?_, ?_, ?_, ?_, hfr, ?_, ?_⟩
  · intro db
    exact List.length_take_le _ _
  · intro db q
    unfold get_students
    cases givenParam q with
    | some cid => exact List.length_take_le _ _
    | none => exact List.length_take_le _ _
  · intro db cid d
    unfold get_attendance
    cases givenParam d with
    | some dd => exact List.length_take_le _ _
    | none => exact List.length_take_le _ _
  · intro students cid
    unfold classStudents
    exact List.length_take_le _ _
  · intro classes students attendance cid sd ed rep q hrep hq
    rcases report_entry_shape classes students attendance cid sd ed rep q hrep hq
      with ⟨s, hs, hqs⟩
    refine ⟨?_, ⟨s, hs, hqs⟩⟩
    rw [hqs]
    show (computeStats (filteredRecords attendance cid sd ed) s).total_days ≤ 1000
    rw [computeStats_total]
    exact le_trans (List.length_filter_le _ _) (hfr attendance cid sd ed)
  · have hmatch : matchesFilter (buildDateFilter "c1" none none) c10rec = true := by decide
    have hfilter : filteredRecords (List.replicate 1001 c10rec) "c1" none none
        = List.replicate 1000 c10rec := by
      unfold filteredRecords
      rw [filter_replicate_of_pos _ c10rec hmatch 1001]
      rw [List.take_replicate]
      norm_num
    have hreport : get_class_report [c10class] [c10student] (List.replicate 1001 c10rec)
        "c1" none none
        = some { class_info := c10class, start_date := none, end_date := none,
                 student_statistics := statsFold (List.replicate 1000 c10rec) []
                   (classStudents [c10student] "c1") } := by
      unfold get_class_report
      rw [show ([c10class].find? (fun c => c.id == "c1")) = some c10class from by decide]
      rw [hfilter]
    have hcs : classStudents [c10student] "c1" = [c10student] := by decide
    have htd : (computeStats (List.replicate 1000 c10rec) c10student).total_days = 1000 := by
      rw [computeStats_total]
      rw [filter_replicate_of_pos (fun r : AttendanceDoc => r.student_id == c10student.id)
        c10rec (by decide) 1000]
      exact List.length_replicate 1000 c10rec
    rw [hreport, hcs]
    show some ((statsFold (List.replicate 1000 c10rec) [] [c10student]).map
      (fun q => (q.1, q.2.total_days))) = some [("s1", 1000)]
    rw [show statsFold (List.replicate 1000 c10rec) [] [c10student]
      = [(c10student.id, computeStats (List.replicate 1000 c10rec) c10student)] from rfl]
    rw [List.map_cons, List.map_nil, htd]
    rfl

set_option maxRecDepth 8000 in
/-- Claim C2 counterexample: for a student with 23 `present` records out of
160, the program's report carries 14.37 percent (1437 hundredths), because
the double product `23/160*100` lands one ulp below 14.375, while
`present / total_days * 100` rounded to 2 decimal places on the exact
fraction is 14.38 (the tie 14.375 rounds to the even hundredth).  So the
claim's equality fails on the program at this store. -/
theorem c2_counterexample :
    ((get_class_report [c2class] [c2student] c2att160 "c1" none none).map
        (fun rep => rep.student_statistics.map
          (fun q => (q.1, q.2.total_days, q.2.present,
            q.2.attendance_percentage_hundredths)))
      = some [("s1", 160, 23, 1437)])
    ∧ roundHalfEvenDiv ((23 : ℤ) * 10000) ((160 : ℤ)) = 1438 := by
  exact ⟨by decide, by decide⟩

/-- Claim C2 (amended): in every successful report, an entry with positive
total_days carries the IEEE binary64 evaluation of
`present / total_days * 100` rounded to 2 decimal places by CPython's
correctly-rounded ties-to-even `round`, represented exactly in hundredths
(`pythonPct`); this can differ from rounding the exact fraction when the
double product lands on the far side of a decimal boundary.  A student with
exactly 3 present, 1 absent and 1 late records still gets 60.00 percent
(6000 hundredths), the double product being exactly 60.0 there. -/
theorem c2_attendance_percentage :
    (∀ (classes : List ClassDoc) (students : List StudentDoc)
        (attendance : List AttendanceDoc) (cid : String) (sd ed : Option String)
        (rep : Report) (q : String × StudentStats),
      get_class_report classes students attendance cid sd ed = some rep →
      q ∈ rep.student_statistics →
      0 < q.2.total_days →
      q.2.attendance_percentage_hundredths = pythonPct q.2.present q.2.total_days)
    ∧ ((get_class_report [c2class] [c2student] c2att "c1" none none).map
        (fun rep => rep.student_statistics.map
          (fun q => (q.1, q.2.attendance_percentage_hundredths)))
      = some [("s1", 6000)]) := by
  constructor
  · intro classes students attendance cid sd ed rep q hrep hq hpos
    rcases report_entry_shape classes students attendance cid sd ed rep q hrep hq
      with ⟨s, hs, hqs⟩
    rw [hqs] at hpos ⊢
    show (computeStats (filteredRecords attendance cid sd ed) s).attendance_percentage_hundredths
      = pythonPct (computeStats (filteredRecords attendance cid sd ed) s).present
          (computeStats (filteredRecords attendance cid sd ed) s).total_days
    rw [computeStats_pct]
    exact if_pos hpos
  · decide

/-- Claim C3: a fetched student of the class with no matching attendance
record in the window still gets a report entry, with all five statistics
zero (the division guard takes the `total_days = 0` branch). -/
theorem c3_zero_record_student :
    ∀ (classes : List ClassDoc) (students : List StudentDoc)
      (attendance : List AttendanceDoc) (cid : String) (sd ed : Option String)
      (rep : Report) (s : StudentDoc),
      get_class_report classes students attendance cid sd ed = some rep →
      s ∈ classStudents students cid →
      ((classStudents students cid).map StudentDoc.id).Nodup →
      (∀ r ∈ filteredRecords attendance cid sd ed, r.student_id ≠ s.id) →
      (s.id, { student_name := s.name, roll_number := s.roll_number,
               total_days := 0, present := 0, absent := 0, late := 0,
               attendance_percentage_hundredths := 0 }) ∈ rep.student_statistics := by
  intro classes students attendance cid sd ed rep s hrep hs hnd hnone
  have hsa : (filteredRecords attendance cid sd ed).filter
      (fun r => r.student_id == s.id) = [] := by
    rw [List.filter_eq_nil_iff]
    intro r hr
    simp [hnone r hr]
  have hcs : computeStats (filteredRecords attendance cid sd ed) s
      = { student_name := s.name, roll_number := s.roll_number,
          total_days := 0, present := 0, absent := 0, late := 0,
          attendance_percentage_hundredths := 0 } := by
    unfold computeStats
    rw [hsa]
    rfl
  rw [report_stats_eq classes students attendance cid sd ed rep hrep]
  rw [← hcs]
  exact statsFold_insert_mem _ _ [] s hnd hs (by simp)

/-- Claim C4: per entry, total_days counts all of the student's filtered
records regardless of status, while present/absent/late count only the exact
status strings, so the three buckets sum to at most total_days; a record
with status `excused` yields total_days 1 and all three buckets 0. -/
theorem c4_total_vs_buckets :
    (∀ (classes : List ClassDoc) (students : List StudentDoc)
        (attendance : List AttendanceDoc) (cid : String) (sd ed : Option String)
        (rep : Report) (q : String × StudentStats),
      get_class_report classes students attendance cid sd ed = some rep →
      q ∈ rep.student_statistics →
      ∃ s ∈ classStudents students cid,
        q.1 = s.id
        ∧ q.2.total_days = ((filteredRecords attendance cid sd ed).filter
            (fun r => r.student_id == s.id)).length
        ∧ q.2.present = (((filteredRecords attendance cid sd ed).filter
            (fun r => r.student_id == s.id)).filter
              (fun r => r.status == "present")).length
        ∧ q.2.absent = (((filteredRecords attendance cid sd ed).filter
            (fun r => r.student_id == s.id)).filter
              (fun r => r.status == "absent")).length
        ∧ q.2.late = (((filteredRecords attendance cid sd ed).filter
            (fun r => r.student_id == s.id)).filter
              (fun r => r.status == "late")).length
        ∧ q.2.present + q.2.absent + q.2.late ≤ q.2.total_days)
    ∧ ((get_class_report [c4class] [c4student] [c4rec] "c1" none none).map
        (fun rep => rep.student_statistics)
      = some [("s1", { student_name := "Bob", roll_number := "1", total_days := 1,
                       present := 0, absent := 0, late := 0,
                       attendance_percentage_hundredths := 0 })]) := by
  constructor
  · intro classes students attendance cid sd ed rep q hrep hq
    rcases report_entry_shape classes students attendance cid sd ed rep q hrep hq
      with ⟨s, hs, hqs⟩
    refine ⟨s, hs, ?_⟩
    rw [hqs]
    refine ⟨rfl, computeStats_total _ s, computeStats_present _ s,
      computeStats_absent _ s, computeStats_late _ s, ?_⟩
    show (computeStats (filteredRecords attendance cid sd ed) s).present
        + (computeStats (filteredRecords attendance cid sd ed) s).absent
        + (computeStats (filteredRecords attendance cid sd ed) s).late
      ≤ (computeStats (filteredRecords attendance cid sd ed) s).total_days
    rw [computeStats_total, computeStats_present, computeStats_absent, computeStats_late]
    exact bucket_sum_le _
  · decide

/-- Claim C5 counterexample: with `end_date` supplied as the empty string the
filter keeps a record dated 2024-01-01 even though that date is not
lexicographically at most `""` — the truthiness check drops the bound
instead of applying it. -/
theorem c5_counterexample :
    filteredRecords [c5a] "c1" none (some "") = [c5a]
    ∧ strLe c5a.date "" = false := by
  exact ⟨by decide, by decide⟩

/-- Claim C5 (amended): within the fetch cap, report date filtering keeps
exactly the class's records satisfying each bound that is supplied as a
non-empty string (a bound supplied as the empty string is treated as absent,
like an omitted one), bounds inclusive under lexicographic string
comparison; the window 2024-01-01 .. 2024-01-31 keeps exactly the records
dated 2024-01-01 and 2024-01-15 out of the three. -/
theorem c5_date_filter :
    (∀ (attendance : List AttendanceDoc) (cid : String) (sd ed : Option String)
        (r : AttendanceDoc), attendance.length ≤ 1000 →
      (r ∈ filteredRecords attendance cid sd ed ↔
        r ∈ attendance ∧ r.class_id = cid
        ∧ (∀ s, sd = some s → s ≠ "" → strLe s r.date = true)
        ∧ (∀ e, ed = some e → e ≠ "" → strLe r.date e = true)))
    ∧ (filteredRecords [c5a, c5b, c5c] "c1" (some "2024-01-01") (some "2024-01-31")
        = [c5a, c5b]) := by
  constructor
  · intro attendance cid sd ed r hlen
    unfold filteredRecords
    rw [List.take_of_length_le (le_trans (List.length_filter_le _ _) hlen)]
    constructor
    · intro h
      rcases List.mem_filter.mp h with ⟨hmem, hp⟩
      exact ⟨hmem, (matchesFilter_buildDateFilter cid sd ed r).mp hp⟩
    · rintro ⟨hmem, hrest⟩
      exact List.mem_filter.mpr ⟨hmem, (matchesFilter_buildDateFilter cid sd ed r).mpr hrest⟩
  · decide

/-- Unfolding equation for `mark_bulk_attendance` on a well-formed head
pair. -/
theorem mark_bulk_cons_ok (db : List AttendanceDoc) (cid d sid st : String)
    (rest : List RawPair) (supply : Nat → String × String × String) :
    mark_bulk_attendance db cid d
        ({ student_id := some sid, status := some st } :: rest) supply
      = ((mark_bulk_attendance
            (mark_attendance db sid cid d st (supply 0).1 (supply 0).2.1 (supply 0).2.2).1
            cid d rest (fun n => supply (n + 1))).1,
         (mark_bulk_attendance
            (mark_attendance db sid cid d st (supply 0).1 (supply 0).2.1 (supply 0).2.2).1
            cid d rest (fun n => supply (n + 1))).2.map
           (fun l => (mark_attendance db sid cid d st
              (supply 0).1 (supply 0).2.1 (supply 0).2.2).2 :: l)) := rfl

/-- Unfolding equation for the spec-side sequential bulk application. -/
theorem bulkSpecSeq_cons (db : List AttendanceDoc) (cid d : String)
    (p : String × String) (rest : List (String × String))
    (supply : Nat → String × String × String) :
    bulkSpecSeq db cid d (p :: rest) supply
      = ((bulkSpecSeq
            (mark_attendance db p.1 cid d p.2 (supply 0).1 (supply 0).2.1 (supply 0).2.2).1
            cid d rest (fun n => supply (n + 1))).1,
         (mark_attendance db p.1 cid d p.2 (supply 0).1 (supply 0).2.1 (supply 0).2.2).2
           :: (bulkSpecSeq
                (mark_attendance db p.1 cid d p.2
                  (supply 0).1 (supply 0).2.1 (supply 0).2.2).1
                cid d rest (fun n => supply (n + 1))).2) := rfl

/-- Claim C7: on a batch of well-formed pairs the bulk operation is exactly
the individual-mark contract applied once per pair in list order, returning
the ordered list of resulting records, whose count equals the batch size;
when a later pair is malformed (missing key) the marks already applied for
the earlier pairs remain in the store and no result list is produced. -/
theorem c7_bulk_refines_seq :
    (∀ (db : List AttendanceDoc) (cid d : String) (pairs : List (String × String))
        (supply : Nat → String × String × String),
      mark_bulk_attendance db cid d
          (pairs.map (fun p => { student_id := some p.1, status := some p.2 })) supply
        = ((bulkSpecSeq db cid d pairs supply).1, some (bulkSpecSeq db cid d pairs supply).2))
    ∧ (∀ (db : List AttendanceDoc) (cid d : String) (pairs : List (String × String))
        (supply : Nat → String × String × String),
      (bulkSpecSeq db cid d pairs supply).2.length = pairs.length)
    ∧ (∀ (db : List AttendanceDoc) (cid d : String) (pairs : List (String × String))
        (bad : RawPair) (rest : List RawPair)
        (supply : Nat → String × String × String),
      bad.student_id = none ∨ bad.status = none →
      mark_bulk_attendance db cid d
          (pairs.map (fun p => { student_id := some p.1, status := some p.2 })
            ++ bad :: rest) supply
        = ((bulkSpecSeq db cid d pairs supply).1, none)) := by
  refine ⟨?_, ?_, ?_⟩
  · intro db cid d pairs
    induction pairs generalizing db with
    | nil => intro supply; rfl
    | cons p rest ih =>
      intro supply
      simp only [List.map_cons]
      rw [mark_bulk_cons_ok]
      rw [ih _ (fun n => supply (n + 1))]
      rw [bulkSpecSeq_cons]
      rfl
  · intro db cid d pairs
    induction pairs generalizing db with
    | nil => intro supply; rfl
    | cons p rest ih =>
      intro supply
      rw [bulkSpecSeq_cons]
      show ((mark_attendance db p.1 cid d p.2 (supply 0).1 (supply 0).2.1 (supply 0).2.2).2
          :: (bulkSpecSeq
              (mark_attendance db p.1 cid d p.2
                (supply 0).1 (supply 0).2.1 (supply 0).2.2).1
              cid d rest (fun n => supply (n + 1))).2).length
        = rest.length + 1
      rw [List.length_cons, ih _ (fun n => supply (n + 1))]
  · intro db cid d pairs
    induction pairs generalizing db with
    | nil =>
      intro bad rest supply hbad
      rcases bad with ⟨bsid, bst⟩
      rcases hbad with h | h
      · cases h
        cases bst with
        | none => rfl
        | some s => rfl
      · cases h
        cases bsid with
        | none => rfl
        | some s => rfl
    | cons p prest ih =>
      intro bad rest supply hbad
      simp only [List.map_cons, List.cons_append]
      rw [mark_bulk_cons_ok]
      rw [ih _ bad rest (fun n => supply (n + 1)) hbad]
      rw [bulkSpecSeq_cons]
      rfl

/-- Witness for C1: marking the fresh triple (s1, c1, 2024-01-01) twice on a
store holding one unrelated record leaves exactly one record for the triple,
with the second status and the first call's id. -/
theorem c1_witness :
    ((mark_attendance (mark_attendance c1db "s1" "c1" "2024-01-01" "present" "id1" "T1" "T2").1
        "s1" "c1" "2024-01-01" "late" "id2" "T3" "T4").1.filter
      (tripleMatch "s1" "c1" "2024-01-01"))
      = [{ id := "id1", student_id := "s1", class_id := "c1", date := "2024-01-01",
           status := "late", marked_at := "T3" }] :=
  c1_mark_preserves_unique_triple.2 c1db "s1" "c1" "2024-01-01" "present" "late"
    "id1" "id2" "T1" "T2" "T3" "T4" (by unfold atMostOnePerTriple; decide)
    (by decide) (by decide)

/-- Witness for C2: applying the percentage theorem to the concrete 3-1-1
report entry. -/
theorem c2_witness :
    ("s1", c2stats).2.attendance_percentage_hundredths
      = pythonPct ("s1", c2stats).2.present ("s1", c2stats).2.total_days :=
  c2_attendance_percentage.1 [c2class] [c2student] c2att "c1" none none c2rep
    ("s1", c2stats) (by decide) (by decide) (by decide)

/-- Witness for C3: the record-less student s2 still gets an all-zero entry
in the concrete report. -/
theorem c3_witness :
    (c3s2.id, { student_name := c3s2.name, roll_number := c3s2.roll_number,
                total_days := 0, present := 0, absent := 0, late := 0,
                attendance_percentage_hundredths := 0 }) ∈ c3rep.student_statistics :=
  c3_zero_record_student [c3class] [c3s1, c3s2] [c3rec] "c1" none none c3rep c3s2
    (by decide) (by decide) (by decide) (by decide)

/-- Witness for C4: the bucket decomposition applied to the concrete
`excused` entry. -/
theorem c4_witness :
    ∃ s ∈ classStudents [c4student] "c1",
      ("s1", c4stats).1 = s.id
      ∧ ("s1", c4stats).2.total_days = ((filteredRecords [c4rec] "c1" none none).filter
          (fun r => r.student_id == s.id)).length
      ∧ ("s1", c4stats).2.present = (((filteredRecords [c4rec] "c1" none none).filter
          (fun r => r.student_id == s.id)).filter (fun r => r.status == "present")).length
      ∧ ("s1", c4stats).2.absent = (((filteredRecords [c4rec] "c1" none none).filter
          (fun r => r.student_id == s.id)).filter (fun r => r.status == "absent")).length
      ∧ ("s1", c4stats).2.late = (((filteredRecords [c4rec] "c1" none none).filter
          (fun r => r.student_id == s.id)).filter (fun r => r.status == "late")).length
      ∧ ("s1", c4stats).2.present + ("s1", c4stats).2.absent + ("s1", c4stats).2.late
          ≤ ("s1", c4stats).2.total_days :=
  c4_total_vs_buckets.1 [c4class] [c4student] [c4rec] "c1" none none c4rep
    ("s1", c4stats) (by decide) (by decide)

/-- Witness for C5: the membership characterization applied to the record
dated 2024-01-01 inside the concrete window. -/
theorem c5_witness :
    c5a ∈ filteredRecords [c5a] "c1" (some "2024-01-01") (some "2024-01-31") ↔
      c5a ∈ [c5a] ∧ c5a.class_id = "c1"
      ∧ (∀ s, (some "2024-01-01" : Option String) = some s → s ≠ ""
          → strLe s c5a.date = true)
      ∧ (∀ e, (some "2024-01-31" : Option String) = some e → e ≠ ""
          → strLe c5a.date e = true) :=
  c5_date_filter.1 [c5a] "c1" (some "2024-01-01") (some "2024-01-31") c5a (by decide)

/-- Witness for C6: fetching the stored class by its id returns a stored
document with that id. -/
theorem c6_witness : c6class ∈ [c6class] ∧ c6class.id = "c1" :=
  c6_notfound_iff.2.1 [c6class] "c1" c6class (by decide)

/-- Witness for C7: a batch whose second pair is missing its student_id key
keeps the first pair's mark persisted and produces no result list. -/
theorem c7_witness :
    mark_bulk_attendance [] "c1" "2024-01-01"
        ([(("s1", "present") : String × String)].map
          (fun p => { student_id := some p.1, status := some p.2 })
            ++ { student_id := none, status := some "late" } :: []) c7supply
      = ((bulkSpecSeq [] "c1" "2024-01-01" [("s1", "present")] c7supply).1, none) :=
  c7_bulk_refines_seq.2.2 [] "c1" "2024-01-01" [("s1", "present")]
    { student_id := none, status := some "late" } [] c7supply (Or.inl rfl)

/-- Witness for C8: the amended agreement applied on an empty store with the
two clock readings equal. -/
theorem c8_witness :
    ∃ stored ∈ (mark_attendance [] "s1" "c1" "2024-01-01" "present" "id1" "T" "T").1,
      stored.id = (mark_attendance [] "s1" "c1" "2024-01-01" "present" "id1" "T" "T").2.id
      ∧ (mark_attendance [] "s1" "c1" "2024-01-01" "present" "id1" "T" "T").2.student_id = "s1"
      ∧ (mark_attendance [] "s1" "c1" "2024-01-01" "present" "id1" "T" "T").2.class_id = "c1"
      ∧ (mark_attendance [] "s1" "c1" "2024-01-01" "present" "id1" "T" "T").2.date
          = "2024-01-01"
      ∧ (mark_attendance [] "s1" "c1" "2024-01-01" "present" "id1" "T" "T").2.status
          = "present"
      ∧ stored.student_id = "s1" ∧ stored.class_id = "c1" ∧ stored.date = "2024-01-01"
      ∧ stored.status = "present"
      ∧ (stored.marked_at = "T" ∨ stored.marked_at = "T")
      ∧ ((mark_attendance [] "s1" "c1" "2024-01-01" "present" "id1" "T" "T").2.marked_at = "T"
          ∨ (mark_attendance [] "s1" "c1" "2024-01-01" "present" "id1" "T" "T").2.marked_at
              = "T")
      ∧ (("T" : String) = "T" →
          stored.marked_at
            = (mark_attendance [] "s1" "c1" "2024-01-01" "present" "id1" "T" "T").2.marked_at) :=
  c8_returned_vs_stored [] "s1" "c1" "2024-01-01" "present" "id1" "T" "T" (by decide)

/-- Witness for C9: filtering the two-student store by the non-empty class
id A returns exactly the class-A students. -/
theorem c9_witness :
    get_students c9db (some "A") = c9db.filter (fun s => s.class_id == "A") :=
  c9_students_filter.2.1 c9db "A" (by decide) (by decide)

/-- Witness for C10: the capped-aggregation conjunct applied to a one-record
report. -/
theorem c10_witness :
    ("s1", c10stats).2.total_days ≤ 1000
    ∧ ∃ s ∈ classStudents [c10student] "c1",
        ("s1", c10stats) = (s.id, computeStats (filteredRecords [c10rec] "c1" none none) s) :=
  c10_fetch_caps.2.2.2.2.2.1 [c10class] [c10student] [c10rec] "c1" none none c10rep
    ("s1", c10stats) (by decide) (by decide)

end ClassTrack
